import Mathlib

/-
Verification of the phone-usage-detection core: a shallow embedding of
the interaction classifier, hold timer, temporal history/filter
(src/hand_phone_analyzer.py, src/utils.py) and the session extractor
(src/video_processor.py), with theorems checking the specified
behaviour against the embedded code.

Conventions of the embedding:
  - Python floats are modelled as rationals (ℚ).
  - Python `None` becomes `Option.none`; lists become `List`.
  - `time.time()` readings are passed in as an explicit `current_time`
    argument; the analyzer never inspects the clock otherwise.
  - The source compares `sqrt(dx^2 + dy^2) <= threshold`; since the
    threshold (200) is nonnegative and `sqrt` is monotone, the
    executable embedding compares the squared distance with the squared
    threshold.  Theorem `C1_classifier_held_iff_close_hand` restates
    the comparison through `Real.sqrt` and proves the two agree.
-/

/- The Batteries rational-number operations are `@[irreducible]`, which
blocks elaborator-side reduction inside `decide` on concrete rational
computations; restore the default reducibility for this file so the
spec test vectors can be evaluated.  Kernel checking is unaffected. -/
attribute [local semireducible] Rat.add Rat.sub Rat.mul Rat.inv Rat.ofScientific

namespace PhoneUsage

/-! ## Configuration constants (src/config.py) -/

/-- PHONE_HAND_DISTANCE_THRESHOLD = 200 (pixels), src/config.py line 11. -/
def PHONE_HAND_DISTANCE_THRESHOLD : ℚ := 200

/-- MIN_MOTION_FRAMES = 3, src/config.py line 14. -/
def MIN_MOTION_FRAMES : Nat := 3

/-- MAX_INACTIVE_FRAMES = 10, src/config.py line 17. -/
def MAX_INACTIVE_FRAMES : Nat := 10

/-! ## Data model -/

/-- Device detection record: the dict built in `detect_devices`
(src/hand_phone_analyzer.py lines 56-61) together with the
`is_being_held` / `is_active` keys attached by the classifier
(lines 102-103).  Before classification both flags default to false. -/
structure Device where
  bbox : ℚ × ℚ × ℚ × ℚ
  confidence : ℚ
  center : ℚ × ℚ
  is_being_held : Bool := false
  is_active : Bool := false
deriving DecidableEq

/-- Mutable analyzer state: the instance attributes initialised in
`HandPhoneAnalyzer.__init__` (src/hand_phone_analyzer.py lines 29-37).
`phone_positions` holds the per-frame primary-phone center or `none`
when no phone was detected. -/
structure AnalyzerState where
  phone_positions : List (Option (ℚ × ℚ))
  active_usage_history : List Bool
  phone_hold_start_time : Option ℚ
  phone_hold_duration : ℚ
  current_phone_timer : ℚ
  is_phone_being_held : Bool
deriving DecidableEq

/-- Initial analyzer state (src/hand_phone_analyzer.py lines 29-37). -/
def initState : AnalyzerState :=
  { phone_positions := []
    active_usage_history := []
    phone_hold_start_time := none
    phone_hold_duration := 0
    current_phone_timer := 0
    is_phone_being_held := false }

/-! ## Geometry utilities (src/utils.py) -/

/-- Squared Euclidean distance.  `utils.calculate_distance` (src/utils.py
line 12-14) returns the square root of this value; see the file header
for why comparisons are embedded on squares. -/
def calculate_distance_sq (point1 point2 : ℚ × ℚ) : ℚ :=
  (point1.1 - point2.1) ^ 2 + (point1.2 - point2.2) ^ 2

/-- Embeds `utils.is_phone_hand_close` (src/utils.py lines 27-36).
`frame_shape` is `(h, w)`, the first two components of the numpy shape.
The phone center is already in pixels; the hand center is normalized
and is scaled by `(x * w, y * h)`.  The source returns
`sqrt(dsq) <= PHONE_HAND_DISTANCE_THRESHOLD`, embedded as
`dsq <= threshold^2`. -/
def is_phone_hand_close (phone_center hand_center : ℚ × ℚ)
    (frame_shape : ℚ × ℚ) : Bool :=
  let h := frame_shape.1
  let w := frame_shape.2
  let phone_pixel := phone_center
  let hand_pixel := (hand_center.1 * w, hand_center.2 * h)
  decide (calculate_distance_sq phone_pixel hand_pixel ≤
    PHONE_HAND_DISTANCE_THRESHOLD ^ 2)

/-! ## Interaction classifier (src/hand_phone_analyzer.py) -/

/-- Embeds `HandPhoneAnalyzer.analyze_phone_hand_interaction`
(src/hand_phone_analyzer.py lines 87-106).  The source loop over hands
breaks at the first close hand; `List.any` performs the same
short-circuit disjunction.  Each hand is represented by its center,
the only field the classifier reads. -/
def analyze_phone_hand_interaction (phones : List Device)
    (hands : List (ℚ × ℚ)) (frame_shape : ℚ × ℚ) : List Device :=
  phones.map fun phone =>
    let is_being_held := hands.any fun hand_center =>
      is_phone_hand_close phone.center hand_center frame_shape
    { phone with is_being_held := is_being_held, is_active := is_being_held }

/-! ## Hold timer (src/hand_phone_analyzer.py lines 129-162) -/

/-- Embeds `HandPhoneAnalyzer.update_phone_timer`
(src/hand_phone_analyzer.py lines 129-149).  The source also receives
an `fps` argument it never reads (omitted here) and obtains the clock
via `time.time()`, passed in as `current_time`.  In the continue-hold
branch the source evaluates `current_time - self.phone_hold_start_time`;
if the start time were `None` Python would raise a TypeError, embedded
as `none` (lemma `update_phone_timer_step` shows reachable states never
take that branch without a start time). -/
def update_phone_timer (st : AnalyzerState) (phones : List Device)
    (current_time : ℚ) : Option AnalyzerState :=
  let phone_currently_held := phones.any fun phone => phone.is_being_held
  if phone_currently_held then
    if st.is_phone_being_held = false then
      some { st with phone_hold_start_time := some current_time
                     is_phone_being_held := true
                     current_phone_timer := 0 }
    else
      match st.phone_hold_start_time with
      | some s => some { st with current_phone_timer := current_time - s }
      | none => none
  else
    if st.is_phone_being_held = true then
      some { st with
        phone_hold_duration := st.phone_hold_duration + st.current_phone_timer
        is_phone_being_held := false
        current_phone_timer := 0
        phone_hold_start_time := none }
    else
      some st

/-- Python truthiness of the optional start time, as tested by
`if self.is_phone_being_held and self.phone_hold_start_time:`
(src/hand_phone_analyzer.py lines 153 and 160): `None` and `0.0` are
both falsy. -/
def timeTruthy : Option ℚ → Bool
  | none => false
  | some t => decide (t ≠ 0)

/-- Embeds `HandPhoneAnalyzer.get_phone_hold_duration`
(src/hand_phone_analyzer.py lines 151-155). -/
def get_phone_hold_duration (st : AnalyzerState) : ℚ :=
  if st.is_phone_being_held = true ∧ timeTruthy st.phone_hold_start_time = true then
    st.current_phone_timer
  else 0

/-- Embeds `HandPhoneAnalyzer.get_total_phone_hold_duration`
(src/hand_phone_analyzer.py lines 157-162). -/
def get_total_phone_hold_duration (st : AnalyzerState) : ℚ :=
  st.phone_hold_duration +
    (if st.is_phone_being_held = true ∧ timeTruthy st.phone_hold_start_time = true then
      st.current_phone_timer
    else 0)

/-- Folds `update_phone_timer` over a trace of
(detected phones, clock reading) pairs, starting from `st`.  A `none`
result means some step raised (see `update_phone_timer`). -/
def runTimerFrom (st : AnalyzerState) (trace : List (List Device × ℚ)) :
    Option AnalyzerState :=
  trace.foldl
    (fun ost step => ost.bind fun s => update_phone_timer s step.1 step.2)
    (some st)

/-- Timer trace starting from the freshly constructed analyzer. -/
def runTimer (trace : List (List Device × ℚ)) : Option AnalyzerState :=
  runTimerFrom initState trace

/-! ## Temporal history and filter (src/hand_phone_analyzer.py lines 164-204) -/

/-- Python slice `l[-n:]`: the suffix of the most recent `n` entries
(the whole list when it is shorter than `n`). -/
def lastWindow (n : Nat) (l : List α) : List α :=
  l.drop (l.length - n)

/-- History retention bound: `max(MIN_MOTION_FRAMES, MAX_INACTIVE_FRAMES) * 2`
(src/hand_phone_analyzer.py line 174). -/
def max_history : Nat := (max MIN_MOTION_FRAMES MAX_INACTIVE_FRAMES) * 2

/-- Embeds `HandPhoneAnalyzer.update_tracking`
(src/hand_phone_analyzer.py lines 164-184).  `frame_idx` is a parameter
of the source method that its body never reads. -/
def update_tracking (st : AnalyzerState) (phones : List Device)
    (frame_idx : Nat) : AnalyzerState :=
  let pos_appended := st.phone_positions ++ [phones.head?.map fun p => p.center]
  let phone_positions :=
    if pos_appended.length > max_history then
      pos_appended.drop (pos_appended.length - max_history)
    else pos_appended
  let is_active := phones.any fun phone => phone.is_being_held
  let act_appended := st.active_usage_history ++ [is_active]
  let active_usage_history :=
    if act_appended.length > max_history then
      act_appended.drop (act_appended.length - max_history)
    else act_appended
  { st with phone_positions := phone_positions
            active_usage_history := active_usage_history }

/-- Folds `update_tracking` over a sequence of
(detected phones, frame index) call arguments, from the fresh state. -/
def runTracking (inputs : List (List Device × Nat)) : AnalyzerState :=
  inputs.foldl (fun st x => update_tracking st x.1 x.2) initState

/-- Embeds `HandPhoneAnalyzer.apply_temporal_filtering`
(src/hand_phone_analyzer.py lines 186-204).  `sum` over Python booleans
counts the `True` entries.  The source also prints a diagnostic in the
overriding branch; output is irrelevant to the returned list. -/
def apply_temporal_filtering (st : AnalyzerState) (phones : List Device) :
    List Device :=
  if st.active_usage_history = [] then phones
  else if MAX_INACTIVE_FRAMES * 3 ≤ st.active_usage_history.length then
    let recent_active := lastWindow (MAX_INACTIVE_FRAMES * 2) st.active_usage_history
    let recent_activity_rate : ℚ :=
      ((recent_active.filter fun b => b).length : ℚ) / (recent_active.length : ℚ)
    if recent_activity_rate = 0 ∧
        phones.any (fun phone => phone.is_being_held) = false then
      phones.map fun phone =>
        { phone with is_being_held := false, is_active := false }
    else phones
  else phones

/-! ## Usage statistics (src/hand_phone_analyzer.py lines 229-250) -/

/-- Record returned by `get_usage_statistics`. -/
structure UsageStats where
  total_frames : Nat
  active_frames : Nat
  usage_percentage : ℚ
  total_phone_hold_time : ℚ
  current_phone_hold_time : ℚ
deriving DecidableEq

/-- Embeds `HandPhoneAnalyzer.get_usage_statistics`
(src/hand_phone_analyzer.py lines 229-250). -/
def get_usage_statistics (st : AnalyzerState) : UsageStats :=
  if st.active_usage_history = [] then
    { total_frames := 0
      active_frames := 0
      usage_percentage := 0
      total_phone_hold_time := 0
      current_phone_hold_time := 0 }
  else
    let total_frames := st.active_usage_history.length
    let active_frames := (st.active_usage_history.filter fun b => b).length
    { total_frames := total_frames
      active_frames := active_frames
      usage_percentage := ((active_frames : ℚ) / (total_frames : ℚ)) * 100
      total_phone_hold_time := get_total_phone_hold_duration st
      current_phone_hold_time := get_phone_hold_duration st }

/-! ## Session extractor (src/video_processor.py lines 222-265) -/

/-- Per-frame record fields read by `get_usage_summary`
(src/video_processor.py lines 64-74 build the full record; the summary
reads `frame_idx`, `timestamp` and `active_phone_usage`). -/
structure FrameData where
  frame_idx : Nat
  timestamp : ℚ
  active_phone_usage : Bool
deriving DecidableEq

/-- Completed usage session (src/video_processor.py lines 238-246). -/
structure UsageSession where
  start_time : ℚ
  start_frame : Nat
  end_time : ℚ
  end_frame : Nat
  duration : ℚ
deriving DecidableEq

/-- Session that has been opened but not yet closed
(src/video_processor.py lines 238-241). -/
structure OpenSession where
  start_time : ℚ
  start_frame : Nat
deriving DecidableEq

/-- Closing of an open session at the given frame
(src/video_processor.py lines 244-246): the duration is
`end_time - start_time`. -/
def closeSession (cur : OpenSession) (end_time : ℚ) (end_frame : Nat) :
    UsageSession :=
  { start_time := cur.start_time
    start_frame := cur.start_frame
    end_time := end_time
    end_frame := end_frame
    duration := end_time - cur.start_time }

/-- The per-frame loop of `get_usage_summary`
(src/video_processor.py lines 235-248): threads the open-session state
and the accumulated session list through the frame sequence and returns
both. -/
def sessionLoop : List FrameData → Option OpenSession → List UsageSession →
    List UsageSession × Option OpenSession
  | [], cur, acc => (acc, cur)
  | f :: rest, cur, acc =>
    if f.active_phone_usage then
      match cur with
      | none =>
        sessionLoop rest
          (some { start_time := f.timestamp, start_frame := f.frame_idx }) acc
      | some c => sessionLoop rest (some c) acc
    else
      match cur with
      | none => sessionLoop rest none acc
      | some c =>
        sessionLoop rest none (acc ++ [closeSession c f.timestamp f.frame_idx])

/-- The session list produced by `get_usage_summary`
(src/video_processor.py lines 232-256): the loop above, then the
end-of-video close of a still-open session at the last frame
(lines 251-256). -/
def extract_usage_sessions (usage_data : List FrameData)
    (h : usage_data ≠ []) : List UsageSession :=
  let scan := sessionLoop usage_data none []
  match scan.2 with
  | none => scan.1
  | some c =>
    let last_frame := usage_data.getLast h
    scan.1 ++ [closeSession c last_frame.timestamp last_frame.frame_idx]

/-- Summary returned by `get_usage_summary`
(src/video_processor.py lines 258-265). -/
structure UsageSummary where
  total_frames : Nat
  active_frames : Nat
  usage_percentage : ℚ
  usage_sessions : List UsageSession
  total_usage_time : ℚ
  total_phone_hold_time : ℚ
deriving DecidableEq

/-- Embeds `VideoProcessor.get_usage_summary`
(src/video_processor.py lines 222-265).  With no processed frames the
source returns `None`.  `analyzer` supplies
`self.analyzer.get_total_phone_hold_duration()`. -/
def get_usage_summary (usage_data : List FrameData)
    (analyzer : AnalyzerState) : Option UsageSummary :=
  if h : usage_data = [] then none
  else
    let total_frames := usage_data.length
    let active_phone_frames :=
      (usage_data.filter fun f => f.active_phone_usage).length
    let usage_sessions := extract_usage_sessions usage_data h
    some
      { total_frames := total_frames
        active_frames := active_phone_frames
        usage_percentage := ((active_phone_frames : ℚ) / (total_frames : ℚ)) * 100
        usage_sessions := usage_sessions
        total_usage_time := (usage_sessions.map fun s => s.duration).sum
        total_phone_hold_time := get_total_phone_hold_duration analyzer }

/-! ## Concrete inputs used by the spec test vectors -/

/-- A detected phone currently classified as held. -/
def heldPhone : Device :=
  { bbox := (0, 0, 10, 10)
    confidence := 1
    center := (5, 5)
    is_being_held := true
    is_active := true }

/-- A detected phone not classified as held. -/
def idlePhone : Device :=
  { bbox := (0, 0, 10, 10)
    confidence := 1
    center := (5, 5)
    is_being_held := false
    is_active := false }

/-- The hold-timer scenario held=[F,T,T,T,F] at clock readings
0..4, followed by a hold at time 5 released at time 6. -/
def c2Trace : List (List Device × ℚ) :=
  [([], 0), ([heldPhone], 1), ([heldPhone], 2), ([heldPhone], 3), ([], 4),
   ([heldPhone], 5), ([], 6)]

/-- The session-extractor scenario: activity [F,F,T,T,T,F,F,T,F] with
timestamp i/30 at frame i. -/
def c3Frames : List FrameData :=
  [{ frame_idx := 0, timestamp := 0, active_phone_usage := false },
   { frame_idx := 1, timestamp := 1/30, active_phone_usage := false },
   { frame_idx := 2, timestamp := 2/30, active_phone_usage := true },
   { frame_idx := 3, timestamp := 3/30, active_phone_usage := true },
   { frame_idx := 4, timestamp := 4/30, active_phone_usage := true },
   { frame_idx := 5, timestamp := 5/30, active_phone_usage := false },
   { frame_idx := 6, timestamp := 6/30, active_phone_usage := false },
   { frame_idx := 7, timestamp := 7/30, active_phone_usage := true },
   { frame_idx := 8, timestamp := 8/30, active_phone_usage := false }]

/-- Analyzer state reaching `get_phone_hold_duration` with a hold that
began exactly at clock reading 0.0. -/
def c10State : AnalyzerState :=
  { phone_positions := []
    active_usage_history := []
    phone_hold_start_time := some 0
    phone_hold_duration := 5
    current_phone_timer := 2
    is_phone_being_held := true }

/-- Invariant of timer states produced by clock readings that never
exceeded `t`: the running segment timer is nonnegative, and a held
state carries a start time that is at most `t`. -/
def TimerInv (st : AnalyzerState) (t : ℚ) : Prop :=
  0 ≤ st.current_phone_timer ∧
  (st.is_phone_being_held = true →
    ∃ s, st.phone_hold_start_time = some s ∧ s ≤ t)

/-! ## Helper lemmas -/

theorem timerInv_mono {st : AnalyzerState} {a b : ℚ} (h : TimerInv st a)
    (hab : a ≤ b) : TimerInv st b := by
  refine ⟨h.1, fun hh => ?_⟩
  obtain ⟨s, hs, hsa⟩ := h.2 hh
  exact ⟨s, hs, hsa.trans hab⟩

theorem timerInv_init (t : ℚ) : TimerInv initState t := by
  refine ⟨le_refl 0, fun hh => ?_⟩
  simp [initState] at hh

/-- Single step of the hold timer from an invariant-satisfying state:
the call succeeds, preserves the invariant, never decreases the
accumulated duration, changes the accumulated duration only on a
held-to-released transition, and zeroes the segment timer when a new
hold begins. -/
theorem update_phone_timer_step (st : AnalyzerState) (phones : List Device)
    (t : ℚ) (h : TimerInv st t) :
    ∃ st2, update_phone_timer st phones t = some st2 ∧ TimerInv st2 t ∧
      st.phone_hold_duration ≤ st2.phone_hold_duration ∧
      (st2.phone_hold_duration ≠ st.phone_hold_duration →
        st.is_phone_being_held = true ∧
          phones.any (fun phone => phone.is_being_held) = false) ∧
      (st.is_phone_being_held = false →
        phones.any (fun phone => phone.is_being_held) = true →
        st2.current_phone_timer = 0) := by
  cases hany : phones.any (fun phone => phone.is_being_held) with
  | true =>
    cases hheld : st.is_phone_being_held with
    | false =>
      refine ⟨{ st with phone_hold_start_time := some t,
                        is_phone_being_held := true,
                        current_phone_timer := 0 }, ?_, ?_, le_refl _, ?_, ?_⟩
      · simp [update_phone_timer, hany, hheld]
      · exact ⟨le_refl 0, fun _ => ⟨t, rfl, le_refl t⟩⟩
      · intro hne; exact absurd rfl hne
      · intro _ _; rfl
    | true =>
      obtain ⟨s, hs, hst⟩ := h.2 hheld
      refine ⟨{ st with current_phone_timer := t - s }, ?_, ?_, le_refl _, ?_, ?_⟩
      · simp [update_phone_timer, hany, hheld, hs]
      · exact ⟨sub_nonneg.mpr hst, fun _ => ⟨s, hs, hst⟩⟩
      · intro hne; exact absurd rfl hne
      · intro hcontra _; cases hcontra
  | false =>
    cases hheld : st.is_phone_being_held with
    | true =>
      refine ⟨{ st with
          phone_hold_duration := st.phone_hold_duration + st.current_phone_timer,
          is_phone_being_held := false,
          current_phone_timer := 0,
          phone_hold_start_time := none }, ?_, ?_, ?_, ?_, ?_⟩
      · simp [update_phone_timer, hany, hheld]
      · exact ⟨le_refl 0, fun hh => by cases hh⟩
      · exact le_add_of_nonneg_right h.1
      · intro _; exact ⟨rfl, rfl⟩
      · intro _ _; rfl
    | false =>
      refine ⟨st, ?_, h, le_refl _, ?_, ?_⟩
      · simp [update_phone_timer, hany, hheld]
      · intro hne; exact absurd rfl hne
      · intro _ hcontra; cases hcontra

theorem runTimerFrom_none_aux (rest : List (List Device × ℚ)) :
    rest.foldl
      (fun ost step => ost.bind fun s => update_phone_timer s step.1 step.2)
      none = none := by
  induction rest with
  | nil => rfl
  | cons p rest ih => rw [List.foldl_cons]; exact ih

theorem runTimerFrom_cons (st : AnalyzerState) (p : List Device × ℚ)
    (rest : List (List Device × ℚ)) :
    runTimerFrom st (p :: rest) =
      (update_phone_timer st p.1 p.2).bind fun st2 => runTimerFrom st2 rest := by
  unfold runTimerFrom
  rw [List.foldl_cons]
  cases hu : update_phone_timer st p.1 p.2 with
  | none =>
    have hfb : (some st).bind (fun s => update_phone_timer s p.1 p.2) =
        (none : Option AnalyzerState) := hu
    rw [hfb]
    exact runTimerFrom_none_aux rest
  | some st2 =>
    have hfb : (some st).bind (fun s => update_phone_timer s p.1 p.2) =
        some st2 := hu
    rw [hfb]
    rfl

theorem runTimerFrom_inv (trace : List (List Device × ℚ)) :
    ∀ (st : AnalyzerState) (a t : ℚ), TimerInv st a →
      List.Chain' (· ≤ ·) ((a :: trace.map Prod.snd) ++ [t]) →
      ∃ st2, runTimerFrom st trace = some st2 ∧ TimerInv st2 t := by
  induction trace with
  | nil =>
    intro st a t hinv hchain
    have hat : a ≤ t := by
      simp only [List.map_nil, List.nil_append] at hchain
      exact (List.chain'_cons.mp hchain).1
    exact ⟨st, rfl, timerInv_mono hinv hat⟩
  | cons p rest ih =>
    intro st a t hinv hchain
    rw [List.map_cons, List.cons_append, List.cons_append] at hchain
    obtain ⟨hap, hchain2⟩ := List.chain'_cons.mp hchain
    rw [← List.cons_append] at hchain2
    obtain ⟨st1, hu, hinv1, _, _, _⟩ :=
      update_phone_timer_step st p.1 p.2 (timerInv_mono hinv hap)
    obtain ⟨st2, hrun, hinvf⟩ := ih st1 p.2 t hinv1 hchain2
    refine ⟨st2, ?_, hinvf⟩
    rw [runTimerFrom_cons, hu]
    exact hrun

theorem runTimer_inv (trace : List (List Device × ℚ)) (t : ℚ)
    (hchain : List.Chain' (· ≤ ·) (trace.map Prod.snd ++ [t])) :
    ∃ st, runTimer trace = some st ∧ TimerInv st t := by
  cases trace with
  | nil => exact ⟨initState, rfl, timerInv_init t⟩
  | cons p rest =>
    have hchain2 :
        List.Chain' (· ≤ ·) ((p.2 :: (p :: rest).map Prod.snd) ++ [t]) := by
      rw [List.map_cons, List.cons_append, List.cons_append]
      refine List.chain'_cons.mpr ⟨le_refl p.2, ?_⟩
      rw [List.map_cons, List.cons_append] at hchain
      exact hchain
    exact runTimerFrom_inv (p :: rest) initState p.2 t (timerInv_init p.2) hchain2

theorem map_eq_self_of_mem {α : Type} {f : α → α} :
    ∀ (l : List α), (∀ a ∈ l, f a = a) → l.map f = l := by
  intro l
  induction l with
  | nil => intro _; rfl
  | cons x xs ih =>
    intro h
    rw [List.map_cons, h x (List.mem_cons_self x xs),
      ih (fun a ha => h a (List.mem_cons_of_mem x ha))]

theorem trim_eq_lastWindow (n : Nat) (l : List α) :
    (if l.length > n then l.drop (l.length - n) else l) = lastWindow n l := by
  by_cases h : l.length > n
  · rw [if_pos h]; rfl
  · rw [if_neg h]
    unfold lastWindow
    have hz : l.length - n = 0 := by omega
    rw [hz, List.drop_zero]

theorem lastWindow_length_le (n : Nat) (l : List α) :
    (lastWindow n l).length ≤ n := by
  unfold lastWindow
  rw [List.length_drop]
  omega

theorem lastWindow_append_singleton (n : Nat) (hn : 1 ≤ n) (l : List α)
    (a : α) :
    lastWindow n (lastWindow n l ++ [a]) = lastWindow n (l ++ [a]) := by
  unfold lastWindow
  rw [List.length_append, List.length_drop, List.length_append]
  by_cases hL : n ≤ l.length
  · have h1 : l.length - (l.length - n) + [a].length - n = 1 := by
      simp only [List.length_singleton]
      omega
    rw [h1]
    rw [List.drop_append_of_le_length (by rw [List.length_drop]; omega)]
    rw [List.drop_drop]
    rw [List.drop_append_of_le_length (by simp only [List.length_singleton]; omega)]
    have h2 : l.length - n + 1 = l.length + [a].length - n := by
      simp only [List.length_singleton]
      omega
    rw [h2]
  · have h0 : l.length - n = 0 := by omega
    rw [h0, List.drop_zero]
    have h1 : l.length - 0 + [a].length - n = l.length + [a].length - n := by
      omega
    rw [h1]

theorem sessionLoop_cons (f : FrameData) (rest : List FrameData)
    (cur : Option OpenSession) (acc : List UsageSession) :
    sessionLoop (f :: rest) cur acc =
      if f.active_phone_usage then
        match cur with
        | none =>
          sessionLoop rest
            (some { start_time := f.timestamp, start_frame := f.frame_idx }) acc
        | some c => sessionLoop rest (some c) acc
      else
        match cur with
        | none => sessionLoop rest none acc
        | some c =>
          sessionLoop rest none (acc ++ [closeSession c f.timestamp f.frame_idx]) :=
  rfl

/-- Whenever the last frame of the sequence is active, the scan ends
with an open session (which `get_usage_summary` then closes). -/
theorem sessionLoop_isSome_of_last_active (l : List FrameData) :
    ∀ (cur : Option OpenSession) (acc : List UsageSession) (lf : FrameData),
      l.getLast? = some lf → lf.active_phone_usage = true →
      ∃ c, (sessionLoop l cur acc).2 = some c := by
  induction l with
  | nil => intro cur acc lf h; simp at h
  | cons f rest ih =>
    intro cur acc lf hlast hact
    cases rest with
    | nil =>
      have hf : f = lf := by
        simpa using hlast
      subst hf
      rw [sessionLoop_cons, if_pos hact]
      cases cur with
      | none => exact ⟨_, rfl⟩
      | some c => exact ⟨c, rfl⟩
    | cons g rs =>
      have hlast2 : (g :: rs).getLast? = some lf := by
        rw [List.getLast?_cons_cons] at hlast
        exact hlast
      rw [sessionLoop_cons]
      by_cases hf : f.active_phone_usage = true
      · rw [if_pos hf]
        cases cur with
        | none => exact ih _ _ lf hlast2 hact
        | some c => exact ih _ _ lf hlast2 hact
      · rw [if_neg hf]
        cases cur with
        | none => exact ih _ _ lf hlast2 hact
        | some c => exact ih _ _ lf hlast2 hact

/-- Per-hand proximity test restated through the Euclidean distance:
the embedded squared comparison agrees with the source's
`sqrt(distance_sq) <= 200`. -/
theorem is_phone_hand_close_iff_sqrt (phone_center hand_center : ℚ × ℚ)
    (frame_shape : ℚ × ℚ) :
    is_phone_hand_close phone_center hand_center frame_shape = true ↔
      Real.sqrt ((calculate_distance_sq phone_center
          (hand_center.1 * frame_shape.2, hand_center.2 * frame_shape.1) : ℚ) : ℝ) ≤
        ((PHONE_HAND_DISTANCE_THRESHOLD : ℚ) : ℝ) := by
  unfold is_phone_hand_close
  simp only [decide_eq_true_eq]
  rw [Real.sqrt_le_left
    (by norm_num [PHONE_HAND_DISTANCE_THRESHOLD] :
      (0 : ℝ) ≤ ((PHONE_HAND_DISTANCE_THRESHOLD : ℚ) : ℝ))]
  constructor
  · intro h; exact_mod_cast h
  · intro h; exact_mod_cast h

/-- C1: for every device detection and every finite set of hand
observations, `analyze_phone_hand_interaction` sets `is_being_held`
to true iff some hand center, scaled from normalized coordinates to
pixel space by `(x * frame_width, y * frame_height)`, lies within
Euclidean distance at most `PHONE_HAND_DISTANCE_THRESHOLD` of the
device's pixel-space center; `is_active` equals `is_being_held`, and
with zero hands the result is false. -/
theorem C1_classifier_held_iff_close_hand (phone : Device)
    (hands : List (ℚ × ℚ)) (frame_shape : ℚ × ℚ) :
    ∃ d : Device,
      analyze_phone_hand_interaction [phone] hands frame_shape = [d] ∧
      (d.is_being_held = true ↔ ∃ hand_center ∈ hands,
        Real.sqrt ((calculate_distance_sq phone.center
            (hand_center.1 * frame_shape.2, hand_center.2 * frame_shape.1) : ℚ) : ℝ) ≤
          ((PHONE_HAND_DISTANCE_THRESHOLD : ℚ) : ℝ)) ∧
      d.is_active = d.is_being_held ∧
      (hands = [] → d.is_being_held = false) := by
  refine ⟨_, rfl, ?_, rfl, ?_⟩
  · show (hands.any fun hand_center =>
        is_phone_hand_close phone.center hand_center frame_shape) = true ↔ _
    rw [List.any_eq_true]
    constructor
    · rintro ⟨hc, hmem, hclose⟩
      exact ⟨hc, hmem, (is_phone_hand_close_iff_sqrt _ _ _).mp hclose⟩
    · rintro ⟨hc, hmem, hdist⟩
      exact ⟨hc, hmem, (is_phone_hand_close_iff_sqrt _ _ _).mpr hdist⟩
  · intro h
    subst h
    rfl

/-- C1 witness: the theorem instantiated at a concrete detection, one
hand and a concrete frame shape. -/
theorem C1_witness :
    ∃ d : Device,
      analyze_phone_hand_interaction [idlePhone] [((0 : ℚ), (0 : ℚ))]
          ((100 : ℚ), (100 : ℚ)) = [d] ∧
      (d.is_being_held = true ↔ ∃ hand_center ∈ [((0 : ℚ), (0 : ℚ))],
        Real.sqrt ((calculate_distance_sq idlePhone.center
            (hand_center.1 * (100 : ℚ), hand_center.2 * (100 : ℚ)) : ℚ) : ℝ) ≤
          ((PHONE_HAND_DISTANCE_THRESHOLD : ℚ) : ℝ)) ∧
      d.is_active = d.is_being_held ∧
      ([((0 : ℚ), (0 : ℚ))] = [] → d.is_being_held = false) :=
  C1_classifier_held_iff_close_hand idlePhone [(0, 0)] (100, 100)

/-- C2 counterexample: on the spec trace held=[F,T,T,T,F] at clock
readings [0,1,2,3,4] the code reads `current_duration` 0 at time 1
(the claim says 1), the total after the release at time 4 is 2.0 (the
claim says 3.0), and after a further hold at time 5 released at time 6
the total is still 2.0 (the claim says 4.0). -/
theorem C2_counterexample :
    ((runTimer (c2Trace.take 2)).map get_phone_hold_duration = some 0 ∧
      (0 : ℚ) ≠ 1) ∧
    ((runTimer (c2Trace.take 5)).map get_total_phone_hold_duration = some 2 ∧
      (2 : ℚ) ≠ 3) ∧
    ((runTimer c2Trace).map get_total_phone_hold_duration = some 2 ∧
      (2 : ℚ) ≠ 4) := by
  refine ⟨⟨by decide, by norm_num⟩, ⟨by decide, by norm_num⟩, by decide, by norm_num⟩

/-- C2 amended: on the trace held=[F,T,T,T,F] at times [0,1,2,3,4],
`current_duration()` reads 0, 1, 2 after the calls at times 1, 2, 3
(the segment timer measures time since the first held frame and is 0
when the hold begins), after the release at time 4 `total_duration()`
is 2.0, and a subsequent hold beginning at time 5 and released at
time 6 contributes 0, leaving `total_duration()` at 2.0. -/
theorem C2_amended :
    (runTimer (c2Trace.take 2)).map get_phone_hold_duration = some 0 ∧
    (runTimer (c2Trace.take 3)).map get_phone_hold_duration = some 1 ∧
    (runTimer (c2Trace.take 4)).map get_phone_hold_duration = some 2 ∧
    (runTimer (c2Trace.take 5)).map get_total_phone_hold_duration = some 2 ∧
    (runTimer c2Trace).map get_total_phone_hold_duration = some 2 := by
  refine ⟨by decide, by decide, by decide, by decide, by decide⟩

/-- C3 counterexample: on the activity sequence [F,F,T,T,T,F,F,T,F]
with timestamps i/30, the second session is closed at frame 8 (the
first inactive frame after frame 7), so its start and end times differ
and its duration is 1/30, not 0 as claimed. -/
theorem C3_counterexample :
    ((get_usage_summary c3Frames initState).bind fun summ =>
        summ.usage_sessions.getLast?.map fun s =>
          (s.start_time, s.end_time, s.end_frame, s.duration)) =
      some (7/30, 8/30, 8, 1/30) ∧
    (7/30 : ℚ) ≠ 8/30 ∧ (1/30 : ℚ) ≠ 0 := by
  refine ⟨by decide, by norm_num, by norm_num⟩

/-- C3 amended: the sequence [F,F,T,T,T,F,F,T,F] with timestamps i/30
yields exactly 2 sessions; session 1 opens at frame 2 (time 2/30) and
is closed at the first subsequent inactive frame 5 (time 5/30,
duration 3/30); session 2 opens at frame 7 and is closed at frame 8
(duration 1/30), so a single-active-frame session has distinct start
and end times and a one-frame-interval duration rather than 0. -/
theorem C3_amended :
    (get_usage_summary c3Frames initState).map
        (fun summ => summ.usage_sessions) =
      some [{ start_time := 2/30, start_frame := 2, end_time := 5/30,
              end_frame := 5, duration := 3/30 },
            { start_time := 7/30, start_frame := 7, end_time := 8/30,
              end_frame := 8, duration := 1/30 }] := by
  decide

/-- C4: for every non-empty per-frame activity sequence whose last
frame is active, `get_usage_summary` closes the session still open at
the end using the last frame's timestamp and frame index, with
duration equal to that timestamp minus the session's start timestamp,
and appends it to the session list (it is never dropped). -/
theorem C4_open_session_closed_at_end (usage_data : List FrameData)
    (analyzer : AnalyzerState) (lf : FrameData)
    (hlast : usage_data.getLast? = some lf)
    (hact : lf.active_phone_usage = true) :
    ∃ summ s, get_usage_summary usage_data analyzer = some summ ∧
      summ.usage_sessions.getLast? = some s ∧
      s.end_time = lf.timestamp ∧ s.end_frame = lf.frame_idx ∧
      s.duration = lf.timestamp - s.start_time := by
  have hne : usage_data ≠ [] := by
    intro h
    rw [h] at hlast
    simp at hlast
  obtain ⟨c, hc⟩ :=
    sessionLoop_isSome_of_last_active usage_data none [] lf hlast hact
  have hgl : usage_data.getLast hne = lf := by
    rw [List.getLast?_eq_getLast usage_data hne] at hlast
    exact Option.some_inj.mp hlast
  have hsessions : extract_usage_sessions usage_data hne =
      (sessionLoop usage_data none []).1 ++
        [closeSession c lf.timestamp lf.frame_idx] := by
    simp only [extract_usage_sessions, hc, hgl]
  have hsumm : get_usage_summary usage_data analyzer = some
      { total_frames := usage_data.length
        active_frames := (usage_data.filter fun f => f.active_phone_usage).length
        usage_percentage :=
          (((usage_data.filter fun f => f.active_phone_usage).length : ℚ) /
            (usage_data.length : ℚ)) * 100
        usage_sessions := extract_usage_sessions usage_data hne
        total_usage_time :=
          ((extract_usage_sessions usage_data hne).map fun s => s.duration).sum
        total_phone_hold_time := get_total_phone_hold_duration analyzer } := by
    unfold get_usage_summary
    rw [dif_neg hne]
  refine ⟨_, closeSession c lf.timestamp lf.frame_idx, hsumm, ?_, rfl, rfl, rfl⟩
  show (extract_usage_sessions usage_data hne).getLast? = _
  rw [hsessions]
  exact List.getLast?_concat _

/-- C4 witness: a one-frame active sequence; the single open session is
closed at that frame. -/
theorem C4_witness :
    (([{ frame_idx := 0, timestamp := 0, active_phone_usage := true }] :
        List FrameData).getLast? =
      some { frame_idx := 0, timestamp := 0, active_phone_usage := true }) ∧
    (({ frame_idx := 0, timestamp := 0, active_phone_usage := true } :
        FrameData).active_phone_usage = true) ∧
    ∃ summ s,
      get_usage_summary
          [{ frame_idx := 0, timestamp := 0, active_phone_usage := true }]
          initState = some summ ∧
      summ.usage_sessions.getLast? = some s ∧
      s.end_time = (0 : ℚ) ∧ s.end_frame = 0 ∧
      s.duration = (0 : ℚ) - s.start_time :=
  ⟨rfl, rfl,
    C4_open_session_closed_at_end
      [{ frame_idx := 0, timestamp := 0, active_phone_usage := true }]
      initState { frame_idx := 0, timestamp := 0, active_phone_usage := true }
      rfl rfl⟩

/-- C5: for every sequence of `update_tracking` calls from the fresh
state, both history buffers hold exactly the suffix of the most
recently appended entries, in append order, bounded in length by
`max_history` (the per-call appended values being the first detected
phone's center, or none, and the any-phone-held flag). -/
theorem C5_history_bound (inputs : List (List Device × Nat)) :
    (runTracking inputs).phone_positions =
      (inputs.map fun x => x.1.head?.map fun p => p.center).drop
        (inputs.length - max_history) ∧
    (runTracking inputs).active_usage_history =
      (inputs.map fun x => x.1.any fun phone => phone.is_being_held).drop
        (inputs.length - max_history) ∧
    (runTracking inputs).phone_positions.length ≤ max_history ∧
    (runTracking inputs).active_usage_history.length ≤ max_history := by
  have hone : 1 ≤ max_history := by decide
  have key :
      (runTracking inputs).phone_positions =
        lastWindow max_history
          (inputs.map fun x => x.1.head?.map fun p => p.center) ∧
      (runTracking inputs).active_usage_history =
        lastWindow max_history
          (inputs.map fun x => x.1.any fun phone => phone.is_being_held) := by
    induction inputs using List.reverseRecOn with
    | nil => exact ⟨rfl, rfl⟩
    | append_singleton l x ih =>
      have hrun : runTracking (l ++ [x]) =
          update_tracking (runTracking l) x.1 x.2 := by
        unfold runTracking
        rw [List.foldl_append]
        rfl
      constructor
      · rw [hrun]
        have h1 : (update_tracking (runTracking l) x.1 x.2).phone_positions =
            lastWindow max_history
              ((runTracking l).phone_positions ++ [x.1.head?.map fun p => p.center]) :=
          trim_eq_lastWindow max_history _
        rw [h1, ih.1, List.map_append, List.map_cons, List.map_nil]
        exact lastWindow_append_singleton max_history hone _ _
      · rw [hrun]
        have h1 : (update_tracking (runTracking l) x.1 x.2).active_usage_history =
            lastWindow max_history
              ((runTracking l).active_usage_history ++
                [x.1.any fun phone => phone.is_being_held]) :=
          trim_eq_lastWindow max_history _
        rw [h1, ih.2, List.map_append, List.map_cons, List.map_nil]
        exact lastWindow_append_singleton max_history hone _ _
  have hlen1 : (inputs.map fun x => x.1.head?.map fun p => p.center).length =
      inputs.length := List.length_map _ _
  have hlen2 :
      (inputs.map fun x => x.1.any fun phone => phone.is_being_held).length =
        inputs.length := List.length_map _ _
  refine ⟨?_, ?_, ?_, ?_⟩
  · rw [key.1]; unfold lastWindow; rw [hlen1]
  · rw [key.2]; unfold lastWindow; rw [hlen2]
  · rw [key.1]; exact lastWindow_length_le _ _
  · rw [key.2]; exact lastWindow_length_le _ _

/-- C6: with strictly fewer than `3 * MAX_INACTIVE_FRAMES` entries in
the activity history, `apply_temporal_filtering` returns the input
device list unchanged (every field of every device untouched). -/
theorem C6_filter_noop_short_history (st : AnalyzerState)
    (phones : List Device)
    (h : st.active_usage_history.length < MAX_INACTIVE_FRAMES * 3) :
    apply_temporal_filtering st phones = phones := by
  unfold apply_temporal_filtering
  by_cases h0 : st.active_usage_history = []
  · rw [if_pos h0]
  · rw [if_neg h0, if_neg (by omega :
      ¬ MAX_INACTIVE_FRAMES * 3 ≤ st.active_usage_history.length)]

/-- C6 witness: the theorem applied to the fresh analyzer (history
length 0 < 30) and one device. -/
theorem C6_witness :
    initState.active_usage_history.length < MAX_INACTIVE_FRAMES * 3 ∧
    apply_temporal_filtering initState [idlePhone] = [idlePhone] :=
  ⟨by decide, C6_filter_noop_short_history initState [idlePhone] (by decide)⟩

/-- C7: when every input device's `is_active` equals its
`is_being_held` (as the classifier produces), the filter returns the
device list with all classification values unchanged: its only
overriding branch fires when no device is currently classified held,
and then force-clearing the flags rewrites false with false, so the
filter never upgrades and in fact never changes a verdict. -/
theorem C7_filter_never_upgrades (st : AnalyzerState)
    (phones : List Device)
    (h : ∀ phone ∈ phones, phone.is_active = phone.is_being_held) :
    apply_temporal_filtering st phones = phones := by
  unfold apply_temporal_filtering
  by_cases h0 : st.active_usage_history = []
  · rw [if_pos h0]
  · rw [if_neg h0]
    by_cases h1 : MAX_INACTIVE_FRAMES * 3 ≤ st.active_usage_history.length
    · rw [if_pos h1]
      dsimp only
      split
      next h2 =>
        have hany := h2.2
        have hid : ∀ phone ∈ phones,
            ({ phone with is_being_held := false, is_active := false } :
              Device) = phone := by
          intro p hp
          have hb : p.is_being_held = false := by
            by_contra hb
            have : phones.any (fun phone => phone.is_being_held) = true :=
              List.any_eq_true.mpr
                ⟨p, hp, by revert hb; cases p.is_being_held <;> simp⟩
            rw [this] at hany
            cases hany
          have ha : p.is_active = false := (h p hp).trans hb
          cases p with
          | mk bbox confidence center held active =>
            simp only at hb ha
            rw [hb, ha]
        exact map_eq_self_of_mem phones hid
      next => rfl
    · rw [if_neg h1]

/-- C7 witness: the theorem applied to the fresh analyzer and one
consistently classified device. -/
theorem C7_witness :
    (∀ phone ∈ [idlePhone], phone.is_active = phone.is_being_held) ∧
    apply_temporal_filtering initState [idlePhone] = [idlePhone] :=
  ⟨by decide, C7_filter_never_upgrades initState [idlePhone] (by decide)⟩

/-- C8: along every timer trace with non-decreasing clock readings
from the fresh state, a further call never decreases the accumulated
`phone_hold_duration`, changes it only on a held-to-not-held
transition (state held, input not held), and zeroes
`current_phone_timer` when a new hold begins; in particular every such
call succeeds. -/
theorem C8_accumulated_duration_monotone (trace : List (List Device × ℚ))
    (phones : List Device) (t : ℚ)
    (hmono : List.Chain' (· ≤ ·) (trace.map Prod.snd ++ [t])) :
    ∃ st st2, runTimer trace = some st ∧
      update_phone_timer st phones t = some st2 ∧
      st.phone_hold_duration ≤ st2.phone_hold_duration ∧
      (st2.phone_hold_duration ≠ st.phone_hold_duration →
        st.is_phone_being_held = true ∧
          phones.any (fun phone => phone.is_being_held) = false) ∧
      (st.is_phone_being_held = false →
        phones.any (fun phone => phone.is_being_held) = true →
        st2.current_phone_timer = 0) := by
  obtain ⟨st, hrun, hinv⟩ := runTimer_inv trace t hmono
  obtain ⟨st2, hu, _, hdur, hchange, hreset⟩ :=
    update_phone_timer_step st phones t hinv
  exact ⟨st, st2, hrun, hu, hdur, hchange, hreset⟩

/-- C8 witness: a one-step trace holding at time 1 followed by a
release call at time 2. -/
theorem C8_witness :
    List.Chain' (· ≤ ·)
      (([([heldPhone], (1 : ℚ))].map Prod.snd) ++ [(2 : ℚ)]) ∧
    ∃ st st2, runTimer [([heldPhone], 1)] = some st ∧
      update_phone_timer st [] 2 = some st2 ∧
      st.phone_hold_duration ≤ st2.phone_hold_duration ∧
      (st2.phone_hold_duration ≠ st.phone_hold_duration →
        st.is_phone_being_held = true ∧
          ([] : List Device).any (fun phone => phone.is_being_held) = false) ∧
      (st.is_phone_being_held = false →
        ([] : List Device).any (fun phone => phone.is_being_held) = true →
        st2.current_phone_timer = 0) :=
  ⟨by norm_num [List.chain'_cons, List.chain'_singleton],
    C8_accumulated_duration_monotone [([heldPhone], 1)] [] 2
      (by norm_num [List.chain'_cons, List.chain'_singleton])⟩

/-- C9: with an empty activity history `get_usage_statistics` returns
the all-zero safe-default record rather than dividing by zero, and
with a non-empty history it returns
`usage_percentage = active_frames / total_frames * 100` with a
provably nonzero denominator. -/
theorem C9_statistics_safe_defaults (st : AnalyzerState) :
    (st.active_usage_history = [] →
      get_usage_statistics st =
        { total_frames := 0, active_frames := 0, usage_percentage := 0,
          total_phone_hold_time := 0, current_phone_hold_time := 0 }) ∧
    (st.active_usage_history ≠ [] →
      (get_usage_statistics st).total_frames =
        st.active_usage_history.length ∧
      (get_usage_statistics st).active_frames =
        (st.active_usage_history.filter fun b => b).length ∧
      (get_usage_statistics st).usage_percentage =
        (((st.active_usage_history.filter fun b => b).length : ℚ) /
          (st.active_usage_history.length : ℚ)) * 100 ∧
      ((st.active_usage_history.length : ℚ) ≠ 0)) := by
  constructor
  · intro h
    unfold get_usage_statistics
    rw [if_pos h]
  · intro h
    refine ⟨?_, ?_, ?_, ?_⟩
    · unfold get_usage_statistics; rw [if_neg h]
    · unfold get_usage_statistics; rw [if_neg h]
    · unfold get_usage_statistics; rw [if_neg h]
    · have hlen : st.active_usage_history.length ≠ 0 := by
        intro hz
        exact h (List.length_eq_zero.mp hz)
      exact_mod_cast hlen

/-- C9 witness: the empty-history branch evaluated on the fresh
analyzer state. -/
theorem C9_witness :
    get_usage_statistics initState =
      { total_frames := 0, active_frames := 0, usage_percentage := 0,
        total_phone_hold_time := 0, current_phone_hold_time := 0 } :=
  (C9_statistics_safe_defaults initState).1 rfl

/-- C10: a hold in progress whose recorded start time is exactly 0.0
is treated by the truthiness guard like no hold at all:
`get_phone_hold_duration` returns 0 and `get_total_phone_hold_duration`
returns only the previously accumulated duration. -/
theorem C10_zero_start_time_guard (st : AnalyzerState)
    (hheld : st.is_phone_being_held = true)
    (hstart : st.phone_hold_start_time = some 0) :
    get_phone_hold_duration st = 0 ∧
    get_total_phone_hold_duration st = st.phone_hold_duration := by
  have ht : timeTruthy st.phone_hold_start_time = false := by
    rw [hstart]
    simp [timeTruthy]
  constructor
  · unfold get_phone_hold_duration
    rw [if_neg]
    intro hcond
    rw [ht] at hcond
    cases hcond.2
  · unfold get_total_phone_hold_duration
    rw [if_neg, add_zero]
    intro hcond
    rw [ht] at hcond
    cases hcond.2

/-- C10 witness: a held state with start time 0.0, nonzero segment
timer 2 and accumulated duration 5: the current duration reads 0 and
the total reads 5. -/
theorem C10_witness :
    c10State.is_phone_being_held = true ∧
    c10State.phone_hold_start_time = some 0 ∧
    get_phone_hold_duration c10State = 0 ∧
    get_total_phone_hold_duration c10State = 5 :=
  ⟨rfl, rfl, (C10_zero_start_time_guard c10State rfl rfl).1,
    (C10_zero_start_time_guard c10State rfl rfl).2⟩

end PhoneUsage
